import Mathlib

/-!
Shallow embedding of `src/gallium/drivers/iris/iris_pipe_control.c` (Mesa iris
driver PIPE_CONTROL helpers) and verification of its specification.

The file under verification emits PIPE_CONTROL synchronization commands through
an opaque raw emitter (`batch->vtbl->emit_raw_pipe_control`).  We model each
emitter invocation as a `RawCall` record and each helper as a pure function
returning the list of raw-emitter calls it performs, in order.
-/

namespace Mesa

/-- PIPE_CONTROL flag bits used by iris_pipe_control.c.  Modelled from the
spec: the numeric `PIPE_CONTROL_*` bit definitions live in `iris_context.h`,
which is not part of the sources; the spec's data model partitions them into
flush bits (render-target, depth, data cache flush), invalidate bits
(texture, constant, vertex-fetch cache invalidate) and control/write bits
(CS stall, write-immediate, write-timestamp, write-depth-count). -/
inductive Flag where
  | renderTargetFlush
  | depthCacheFlush
  | dataCacheFlush
  | textureCacheInvalidate
  | constCacheInvalidate
  | vfCacheInvalidate
  | csStall
  | writeImmediate
  | writeTimestamp
  | writeDepthCount
deriving DecidableEq, Repr

/-- Modelled from the spec: the mask `PIPE_CONTROL_CACHE_FLUSH_BITS` of
`iris_context.h` — the cache-flush bits. -/
def PIPE_CONTROL_CACHE_FLUSH_BITS : Finset Flag :=
  {Flag.renderTargetFlush, Flag.depthCacheFlush, Flag.dataCacheFlush}

/-- Modelled from the spec: the mask `PIPE_CONTROL_CACHE_INVALIDATE_BITS` of
`iris_context.h` — the cache-invalidate bits. -/
def PIPE_CONTROL_CACHE_INVALIDATE_BITS : Finset Flag :=
  {Flag.textureCacheInvalidate, Flag.constCacheInvalidate, Flag.vfCacheInvalidate}

/-- A GPU buffer object (`struct iris_bo`), identified abstractly. -/
structure Buffer where
  id : Nat
deriving DecidableEq, Repr

/-- The per-batch state the barrier code reads: `batch->contains_draw`,
`batch->cache.render->entries` and `batch->cache.depth->entries`. -/
structure BatchState where
  contains_draw : Bool
  cache_render_entries : Nat
  cache_depth_entries : Nat
deriving DecidableEq, Repr

/-- A batch (`struct iris_batch`): its mutable work-tracking state plus the
screen's workaround buffer (`batch->screen->workaround_bo`). -/
structure Batch where
  state : BatchState
  workaround_bo : Buffer
deriving DecidableEq, Repr

/-- Modelled from the spec: the batch identifiers `IRIS_BATCH_RENDER` and
`IRIS_BATCH_COMPUTE` (with `IRIS_BATCH_COUNT = 2`) of `iris_context.h`; the
spec describes exactly a render stream and a compute stream. -/
inductive BatchName where
  | render
  | compute
deriving DecidableEq, Repr

/-- One invocation of the raw emitter
`batch->vtbl->emit_raw_pipe_control(batch, flags, bo, offset, imm)`:
which batch it targets, the final flag set, and the optional write target. -/
structure RawCall where
  batch : BatchName
  flags : Finset Flag
  bo : Option Buffer
  offset : Nat
  imm : Nat
deriving DecidableEq

/-- `iris_emit_pipe_control_write`: emit a PIPE_CONTROL that writes to a
buffer object; passes everything through to the raw emitter unmodified. -/
def iris_emit_pipe_control_write (who : BatchName) (batch : Batch)
    (flags : Finset Flag) (bo : Option Buffer) (offset : Nat) (imm : Nat) :
    List RawCall :=
  [{ batch := who, flags := flags, bo := bo, offset := offset, imm := imm }]

/-- `iris_emit_end_of_pipe_sync`: a write-carrying flush with CS stall and
write-immediate added, targeting the workaround buffer at offset 0, value 0. -/
def iris_emit_end_of_pipe_sync (who : BatchName) (batch : Batch)
    (flags : Finset Flag) : List RawCall :=
  iris_emit_pipe_control_write who batch
    (flags ∪ {Flag.csStall, Flag.writeImmediate})
    (some batch.workaround_bo) 0 0

/-- `iris_emit_pipe_control_flush`: if `flags` holds both cache-flush and
cache-invalidate bits, first do an end-of-pipe sync carrying the flush bits,
then emit the remaining flags with the flush bits and CS stall stripped;
otherwise emit `flags` unchanged.  The final raw emit carries no write
target (`NULL, 0, 0`). -/
def iris_emit_pipe_control_flush (who : BatchName) (batch : Batch)
    (flags : Finset Flag) : List RawCall :=
  if (flags ∩ PIPE_CONTROL_CACHE_FLUSH_BITS).Nonempty ∧
     (flags ∩ PIPE_CONTROL_CACHE_INVALIDATE_BITS).Nonempty then
    iris_emit_end_of_pipe_sync who batch (flags ∩ PIPE_CONTROL_CACHE_FLUSH_BITS) ++
      [{ batch := who,
         flags := flags \ (PIPE_CONTROL_CACHE_FLUSH_BITS ∪ {Flag.csStall}),
         bo := none, offset := 0, imm := 0 }]
  else
    [{ batch := who, flags := flags, bo := none, offset := 0, imm := 0 }]

/-- Modelled from the spec: the `PIPE_BARRIER_*` scope bits tested by
`iris_memory_barrier` (`p_defines.h` is not part of the sources); the spec
names vertex buffer, index buffer, indirect-draw buffer, constant buffer,
texture and framebuffer. -/
inductive BarrierBit where
  | vertexBuffer
  | indexBuffer
  | indirectBuffer
  | constantBuffer
  | texture
  | framebuffer
deriving DecidableEq, Repr

/-- The iris context: its array of batches, indexed by `BatchName`. -/
structure IrisContext where
  batches : BatchName → Batch

/-- Modelled from the spec: the iteration order of the
`for (int i = 0; i < IRIS_BATCH_COUNT; i++)` loop — render then compute. -/
def IRIS_BATCH_LIST : List BatchName := [BatchName.render, BatchName.compute]

/-- `iris_texture_barrier`: flush-then-invalidate on the render batch when it
has pending draws or nonzero render/depth cache entries, and on the compute
batch when it has pending work. -/
def iris_texture_barrier (ice : IrisContext) : List RawCall :=
  let render_batch := ice.batches BatchName.render
  let compute_batch := ice.batches BatchName.compute
  (if render_batch.state.contains_draw = true ∨
      render_batch.state.cache_render_entries ≠ 0 ∨
      render_batch.state.cache_depth_entries ≠ 0 then
    iris_emit_pipe_control_flush BatchName.render render_batch
      {Flag.depthCacheFlush, Flag.renderTargetFlush, Flag.csStall} ++
    iris_emit_pipe_control_flush BatchName.render render_batch
      {Flag.textureCacheInvalidate}
  else []) ++
  (if compute_batch.state.contains_draw = true then
    iris_emit_pipe_control_flush BatchName.compute compute_batch
      {Flag.csStall} ++
    iris_emit_pipe_control_flush BatchName.compute compute_batch
      {Flag.textureCacheInvalidate}
  else [])

/-- The flag accumulation of `iris_memory_barrier`: start from
data-cache flush + CS stall, then add invalidate/flush bits per scope. -/
def iris_memory_barrier_bits (flags : Finset BarrierBit) : Finset Flag :=
  let bits0 : Finset Flag := {Flag.dataCacheFlush, Flag.csStall}
  let bits1 :=
    if (flags ∩ ({BarrierBit.vertexBuffer, BarrierBit.indexBuffer,
                  BarrierBit.indirectBuffer} : Finset BarrierBit)).Nonempty then
      bits0 ∪ {Flag.vfCacheInvalidate}
    else bits0
  let bits2 :=
    if BarrierBit.constantBuffer ∈ flags then
      bits1 ∪ {Flag.textureCacheInvalidate, Flag.constCacheInvalidate}
    else bits1
  if (flags ∩ ({BarrierBit.texture, BarrierBit.framebuffer} :
               Finset BarrierBit)).Nonempty then
    bits2 ∪ {Flag.textureCacheInvalidate, Flag.renderTargetFlush}
  else bits2

/-- `iris_memory_barrier`: compute the accumulated flag set, then flush it on
every batch that has pending draws or nonzero render-cache entries. -/
def iris_memory_barrier (ice : IrisContext) (flags : Finset BarrierBit) :
    List RawCall :=
  (IRIS_BATCH_LIST.map fun i =>
    if (ice.batches i).state.contains_draw = true ∨
       (ice.batches i).state.cache_render_entries ≠ 0 then
      iris_emit_pipe_control_flush i (ice.batches i)
        (iris_memory_barrier_bits flags)
    else []).flatten

/-! ### Helper lemmas about the flush splitter -/

/-- On the split path, `iris_emit_pipe_control_flush` performs exactly the
end-of-pipe sync call followed by the stripped-flags call. -/
theorem emit_flush_split (who : BatchName) (batch : Batch) (F : Finset Flag)
    (h : (F ∩ PIPE_CONTROL_CACHE_FLUSH_BITS).Nonempty ∧
         (F ∩ PIPE_CONTROL_CACHE_INVALIDATE_BITS).Nonempty) :
    iris_emit_pipe_control_flush who batch F =
      [{ batch := who,
         flags := (F ∩ PIPE_CONTROL_CACHE_FLUSH_BITS) ∪
                  {Flag.csStall, Flag.writeImmediate},
         bo := some batch.workaround_bo, offset := 0, imm := 0 },
       { batch := who,
         flags := F \ (PIPE_CONTROL_CACHE_FLUSH_BITS ∪ {Flag.csStall}),
         bo := none, offset := 0, imm := 0 }] := by
  simp only [iris_emit_pipe_control_flush, if_pos h, iris_emit_end_of_pipe_sync,
    iris_emit_pipe_control_write, List.singleton_append]

/-- Off the split path, `iris_emit_pipe_control_flush` is a single raw emit
with the flags unchanged and no write target. -/
theorem emit_flush_no_split (who : BatchName) (batch : Batch) (F : Finset Flag)
    (h : ¬((F ∩ PIPE_CONTROL_CACHE_FLUSH_BITS).Nonempty ∧
           (F ∩ PIPE_CONTROL_CACHE_INVALIDATE_BITS).Nonempty)) :
    iris_emit_pipe_control_flush who batch F =
      [{ batch := who, flags := F, bo := none, offset := 0, imm := 0 }] := by
  simp only [iris_emit_pipe_control_flush, if_neg h]

/-- Every call emitted by the flush helper targets the batch it was given. -/
theorem emit_flush_batch_mem (who : BatchName) (batch : Batch) (F : Finset Flag) :
    ∀ c ∈ iris_emit_pipe_control_flush who batch F, c.batch = who := by
  intro c hc
  by_cases h : (F ∩ PIPE_CONTROL_CACHE_FLUSH_BITS).Nonempty ∧
               (F ∩ PIPE_CONTROL_CACHE_INVALIDATE_BITS).Nonempty
  · rw [emit_flush_split who batch F h] at hc
    simp only [List.mem_cons, List.not_mem_nil, or_false] at hc
    rcases hc with hc | hc <;> subst hc <;> rfl
  · rw [emit_flush_no_split who batch F h] at hc
    simp only [List.mem_singleton] at hc
    subst hc
    rfl

/-- The flush helper reads nothing of the batch but its workaround buffer. -/
theorem emit_flush_congr_bo (who : BatchName) (b1 b2 : Batch) (F : Finset Flag)
    (h : b1.workaround_bo = b2.workaround_bo) :
    iris_emit_pipe_control_flush who b1 F = iris_emit_pipe_control_flush who b2 F := by
  obtain ⟨s1, w1⟩ := b1
  obtain ⟨s2, w2⟩ := b2
  cases h
  rfl

/-! ### C1, C2, C3, C8, C9, C10 — the single-batch emit helpers -/

/-- C1: for every flag set F holding at least one cache-flush bit and at
least one cache-invalidate bit, `iris_emit_pipe_control_flush(batch, F)`
produces exactly two raw-emitter calls, in order: first with flags
`(F ∩ flush bits) | CS_STALL | WRITE_IMMEDIATE` writing 0 to the workaround
buffer at offset 0, second with flags `F` minus the flush bits and CS_STALL,
with no write target. -/
theorem C1_flush_splits_on_overlap (who : BatchName) (batch : Batch)
    (F : Finset Flag)
    (h1 : (F ∩ PIPE_CONTROL_CACHE_FLUSH_BITS).Nonempty)
    (h2 : (F ∩ PIPE_CONTROL_CACHE_INVALIDATE_BITS).Nonempty) :
    iris_emit_pipe_control_flush who batch F =
      [{ batch := who,
         flags := (F ∩ PIPE_CONTROL_CACHE_FLUSH_BITS) ∪
                  {Flag.csStall, Flag.writeImmediate},
         bo := some batch.workaround_bo, offset := 0, imm := 0 },
       { batch := who,
         flags := F \ (PIPE_CONTROL_CACHE_FLUSH_BITS ∪ {Flag.csStall}),
         bo := none, offset := 0, imm := 0 }] :=
  emit_flush_split who batch F ⟨h1, h2⟩

/-- Concrete instance of C1: render-target flush together with texture-cache
invalidate is split into the end-of-pipe sync and the stripped invalidate. -/
theorem C1_flush_splits_on_overlap_witness :
    iris_emit_pipe_control_flush BatchName.render ⟨⟨false, 0, 0⟩, ⟨5⟩⟩
      {Flag.renderTargetFlush, Flag.textureCacheInvalidate} =
      [{ batch := BatchName.render,
         flags := {Flag.renderTargetFlush, Flag.csStall, Flag.writeImmediate},
         bo := some ⟨5⟩, offset := 0, imm := 0 },
       { batch := BatchName.render,
         flags := {Flag.textureCacheInvalidate},
         bo := none, offset := 0, imm := 0 }] := by
  rw [C1_flush_splits_on_overlap BatchName.render ⟨⟨false, 0, 0⟩, ⟨5⟩⟩
    {Flag.renderTargetFlush, Flag.textureCacheInvalidate} (by decide) (by decide)]
  decide

/-- C2: for every flag set F that does not hold both a cache-flush bit and a
cache-invalidate bit, `iris_emit_pipe_control_flush(batch, F)` produces
exactly one raw-emitter call with flags F unchanged and no write target. -/
theorem C2_flush_single_no_overlap (who : BatchName) (batch : Batch)
    (F : Finset Flag)
    (h : ¬((F ∩ PIPE_CONTROL_CACHE_FLUSH_BITS).Nonempty ∧
           (F ∩ PIPE_CONTROL_CACHE_INVALIDATE_BITS).Nonempty)) :
    iris_emit_pipe_control_flush who batch F =
      [{ batch := who, flags := F, bo := none, offset := 0, imm := 0 }] :=
  emit_flush_no_split who batch F h

/-- Concrete instance of C2: a flush-bits-only request goes through as one
unchanged call. -/
theorem C2_flush_single_no_overlap_witness :
    iris_emit_pipe_control_flush BatchName.render ⟨⟨false, 0, 0⟩, ⟨5⟩⟩
      {Flag.renderTargetFlush, Flag.depthCacheFlush, Flag.csStall} =
      [{ batch := BatchName.render,
         flags := {Flag.renderTargetFlush, Flag.depthCacheFlush, Flag.csStall},
         bo := none, offset := 0, imm := 0 }] :=
  C2_flush_single_no_overlap BatchName.render ⟨⟨false, 0, 0⟩, ⟨5⟩⟩
    {Flag.renderTargetFlush, Flag.depthCacheFlush, Flag.csStall} (by decide)

/-- C3: for every flag set G, `iris_emit_end_of_pipe_sync(batch, G)` produces
exactly one raw-emitter call with flags `G | CS_STALL | WRITE_IMMEDIATE` and
write target the workaround buffer at offset 0 with value 0. -/
theorem C3_end_of_pipe_sync_shape (who : BatchName) (batch : Batch)
    (G : Finset Flag) :
    iris_emit_end_of_pipe_sync who batch G =
      [{ batch := who,
         flags := G ∪ {Flag.csStall, Flag.writeImmediate},
         bo := some batch.workaround_bo, offset := 0, imm := 0 }] :=
  rfl

/-- C8: `iris_emit_pipe_control_write` always performs exactly one raw-emitter
call, passing flags, buffer, offset and immediate through unmodified, with no
splitting on any input. -/
theorem C8_write_passthrough (who : BatchName) (batch : Batch)
    (F : Finset Flag) (bo : Option Buffer) (offset imm : Nat) :
    iris_emit_pipe_control_write who batch F bo offset imm =
      [{ batch := who, flags := F, bo := bo, offset := offset, imm := imm }] :=
  rfl

/-- C9: the raw-call sequences of `iris_emit_pipe_control_flush` and
`iris_emit_end_of_pipe_sync` depend only on the flags argument, not on the
batch's work-tracking state: two batches differing only in their
`BatchState` produce identical call sequences. -/
theorem C9_flush_state_independent (who : BatchName) (wb : Buffer)
    (s1 s2 : BatchState) (F : Finset Flag) :
    iris_emit_pipe_control_flush who ⟨s1, wb⟩ F =
      iris_emit_pipe_control_flush who ⟨s2, wb⟩ F ∧
    iris_emit_end_of_pipe_sync who ⟨s1, wb⟩ F =
      iris_emit_end_of_pipe_sync who ⟨s2, wb⟩ F :=
  ⟨rfl, rfl⟩

/-- C10: the final raw-emitter call of `iris_emit_pipe_control_flush` carries
no write target on every path (buffer NULL, offset 0, value 0), whatever F
holds; and the only call with a write target ever produced is the end-of-pipe
sync of the split path. -/
theorem C10_flush_final_call_no_write_target (who : BatchName) (batch : Batch)
    (F : Finset Flag) :
    ((iris_emit_pipe_control_flush who batch F).getLast?).map
        (fun c => (c.bo, c.offset, c.imm)) = some (none, 0, 0) ∧
    (iris_emit_pipe_control_flush who batch F).filter
        (fun c => c.bo.isSome) =
      (if (F ∩ PIPE_CONTROL_CACHE_FLUSH_BITS).Nonempty ∧
          (F ∩ PIPE_CONTROL_CACHE_INVALIDATE_BITS).Nonempty then
        iris_emit_end_of_pipe_sync who batch (F ∩ PIPE_CONTROL_CACHE_FLUSH_BITS)
      else []) := by
  by_cases h : (F ∩ PIPE_CONTROL_CACHE_FLUSH_BITS).Nonempty ∧
               (F ∩ PIPE_CONTROL_CACHE_INVALIDATE_BITS).Nonempty
  · rw [emit_flush_split who batch F h, if_pos h]
    constructor
    · rfl
    · rfl
  · rw [emit_flush_no_split who batch F h, if_neg h]
    constructor
    · rfl
    · rfl

/-! ### C4, C5, C6 — the barrier coordinator -/

/-- C4: `iris_texture_barrier` makes, on the render batch, two separate flush
calls (depth flush + render-target flush + stall, then texture invalidate)
exactly when the render batch has pending draws or nonzero render/depth cache
entries, and on the compute batch (stall, then texture invalidate) exactly
when it has pending work; and the resulting raw-emitter trace is those four
unsplit commands. -/
theorem C4_texture_barrier_algorithm (ice : IrisContext) :
    iris_texture_barrier ice =
      (if (ice.batches BatchName.render).state.contains_draw = true ∨
          (ice.batches BatchName.render).state.cache_render_entries ≠ 0 ∨
          (ice.batches BatchName.render).state.cache_depth_entries ≠ 0 then
        iris_emit_pipe_control_flush BatchName.render (ice.batches BatchName.render)
          {Flag.depthCacheFlush, Flag.renderTargetFlush, Flag.csStall} ++
        iris_emit_pipe_control_flush BatchName.render (ice.batches BatchName.render)
          {Flag.textureCacheInvalidate}
      else []) ++
      (if (ice.batches BatchName.compute).state.contains_draw = true then
        iris_emit_pipe_control_flush BatchName.compute (ice.batches BatchName.compute)
          {Flag.csStall} ++
        iris_emit_pipe_control_flush BatchName.compute (ice.batches BatchName.compute)
          {Flag.textureCacheInvalidate}
      else []) ∧
    iris_texture_barrier ice =
      (if (ice.batches BatchName.render).state.contains_draw = true ∨
          (ice.batches BatchName.render).state.cache_render_entries ≠ 0 ∨
          (ice.batches BatchName.render).state.cache_depth_entries ≠ 0 then
        [{ batch := BatchName.render,
           flags := {Flag.depthCacheFlush, Flag.renderTargetFlush, Flag.csStall},
           bo := none, offset := 0, imm := 0 },
         { batch := BatchName.render, flags := {Flag.textureCacheInvalidate},
           bo := none, offset := 0, imm := 0 }]
      else []) ++
      (if (ice.batches BatchName.compute).state.contains_draw = true then
        [{ batch := BatchName.compute, flags := {Flag.csStall},
           bo := none, offset := 0, imm := 0 },
         { batch := BatchName.compute, flags := {Flag.textureCacheInvalidate},
           bo := none, offset := 0, imm := 0 }]
      else []) := by
  constructor
  · rfl
  · have e1 := emit_flush_no_split BatchName.render (ice.batches BatchName.render)
      {Flag.depthCacheFlush, Flag.renderTargetFlush, Flag.csStall} (by decide)
    have e2 := emit_flush_no_split BatchName.render (ice.batches BatchName.render)
      {Flag.textureCacheInvalidate} (by decide)
    have e3 := emit_flush_no_split BatchName.compute (ice.batches BatchName.compute)
      {Flag.csStall} (by decide)
    have e4 := emit_flush_no_split BatchName.compute (ice.batches BatchName.compute)
      {Flag.textureCacheInvalidate} (by decide)
    simp only [iris_texture_barrier, e1, e2, e3, e4, List.singleton_append]

/-- The memory-barrier flag accumulation, written exactly as the spec's §4.4
describes it: a base of data-cache flush + stall, plus scope-dependent
additions, as one union of independent contributions. -/
def memoryBarrierBitsSpec (scope : Finset BarrierBit) : Finset Flag :=
  (({Flag.dataCacheFlush, Flag.csStall} : Finset Flag) ∪
   (if (scope ∩ ({BarrierBit.vertexBuffer, BarrierBit.indexBuffer,
                  BarrierBit.indirectBuffer} : Finset BarrierBit)).Nonempty then
      ({Flag.vfCacheInvalidate} : Finset Flag)
    else ∅)) ∪
  ((if BarrierBit.constantBuffer ∈ scope then
      ({Flag.textureCacheInvalidate, Flag.constCacheInvalidate} : Finset Flag)
    else ∅) ∪
   (if (scope ∩ ({BarrierBit.texture, BarrierBit.framebuffer} :
                 Finset BarrierBit)).Nonempty then
      ({Flag.textureCacheInvalidate, Flag.renderTargetFlush} : Finset Flag)
    else ∅))

/-- C5: `iris_memory_barrier` computes the accumulated flag set the spec
describes, issues exactly one flush of that set per batch with pending draws
or nonzero render-cache entries (render then compute), and never consults the
depth-cache entry count: contexts agreeing on everything but depth-cache
entries produce identical traces. -/
theorem C5_memory_barrier_algorithm (ice : IrisContext) (scope : Finset BarrierBit) :
    iris_memory_barrier_bits scope = memoryBarrierBitsSpec scope ∧
    iris_memory_barrier ice scope =
      (if (ice.batches BatchName.render).state.contains_draw = true ∨
          (ice.batches BatchName.render).state.cache_render_entries ≠ 0 then
        iris_emit_pipe_control_flush BatchName.render (ice.batches BatchName.render)
          (memoryBarrierBitsSpec scope)
      else []) ++
      (if (ice.batches BatchName.compute).state.contains_draw = true ∨
          (ice.batches BatchName.compute).state.cache_render_entries ≠ 0 then
        iris_emit_pipe_control_flush BatchName.compute (ice.batches BatchName.compute)
          (memoryBarrierBitsSpec scope)
      else []) ∧
    (∀ ice2 : IrisContext,
      (∀ i, (ice2.batches i).state.contains_draw = (ice.batches i).state.contains_draw) →
      (∀ i, (ice2.batches i).state.cache_render_entries =
            (ice.batches i).state.cache_render_entries) →
      (∀ i, (ice2.batches i).workaround_bo = (ice.batches i).workaround_bo) →
      iris_memory_barrier ice2 scope = iris_memory_barrier ice scope) := by
  have hbits : iris_memory_barrier_bits scope = memoryBarrierBitsSpec scope := by
    simp only [iris_memory_barrier_bits, memoryBarrierBitsSpec]
    split_ifs <;> decide
  refine ⟨hbits, ?_, ?_⟩
  · simp only [iris_memory_barrier, IRIS_BATCH_LIST, List.map_cons, List.map_nil,
      List.flatten_cons, List.flatten_nil, List.append_nil, hbits]
  · intro ice2 hcd hcr hwb
    have hpart : ∀ i : BatchName,
        (if (ice2.batches i).state.contains_draw = true ∨
            (ice2.batches i).state.cache_render_entries ≠ 0 then
          iris_emit_pipe_control_flush i (ice2.batches i)
            (iris_memory_barrier_bits scope)
        else []) =
        (if (ice.batches i).state.contains_draw = true ∨
            (ice.batches i).state.cache_render_entries ≠ 0 then
          iris_emit_pipe_control_flush i (ice.batches i)
            (iris_memory_barrier_bits scope)
        else []) := by
      intro i
      rw [hcd i, hcr i]
      by_cases hcond : (ice.batches i).state.contains_draw = true ∨
          (ice.batches i).state.cache_render_entries ≠ 0
      · rw [if_pos hcond, if_pos hcond,
          emit_flush_congr_bo i (ice2.batches i) (ice.batches i) _ (hwb i)]
      · rw [if_neg hcond, if_neg hcond]
    simp only [iris_memory_barrier, IRIS_BATCH_LIST, List.map_cons, List.map_nil,
      hpart]

/-- Concrete instance of C5: with an empty scope and a context whose render
batch has a draw pending, the two sides of the algorithm equation coincide,
and bumping only the depth-cache entry count changes nothing. -/
theorem C5_memory_barrier_algorithm_witness :
    iris_memory_barrier ⟨fun _ => ⟨⟨true, 0, 7⟩, ⟨1⟩⟩⟩ ∅ =
      iris_memory_barrier ⟨fun _ => ⟨⟨true, 0, 0⟩, ⟨1⟩⟩⟩ ∅ :=
  (C5_memory_barrier_algorithm ⟨fun _ => ⟨⟨true, 0, 0⟩, ⟨1⟩⟩⟩ ∅).2.2
    ⟨fun _ => ⟨⟨true, 0, 7⟩, ⟨1⟩⟩⟩ (fun _ => rfl) (fun _ => rfl) (fun _ => rfl)

/-- C6: a batch with no outstanding relevant work is never touched: an idle
render and compute batch make the texture barrier a no-op, and the memory
barrier never emits a call against a batch without pending draws and with
zero render-cache entries. -/
theorem C6_idle_batches_untouched (ice : IrisContext) (scope : Finset BarrierBit) :
    ((ice.batches BatchName.render).state.contains_draw = false →
     (ice.batches BatchName.render).state.cache_render_entries = 0 →
     (ice.batches BatchName.render).state.cache_depth_entries = 0 →
     (ice.batches BatchName.compute).state.contains_draw = false →
     iris_texture_barrier ice = []) ∧
    (∀ b : BatchName,
      (ice.batches b).state.contains_draw = false →
      (ice.batches b).state.cache_render_entries = 0 →
      (iris_memory_barrier ice scope).filter
        (fun c => decide (c.batch = b)) = []) := by
  constructor
  · intro h1 h2 h3 h4
    simp [iris_texture_barrier, h1, h2, h3, h4]
  · intro b h1 h2
    rw [List.filter_eq_nil_iff]
    intro c hc
    simp only [iris_memory_barrier, IRIS_BATCH_LIST, List.mem_flatten,
      List.mem_map] at hc
    obtain ⟨l, ⟨i, hi, hl⟩, hcl⟩ := hc
    by_cases hcond : (ice.batches i).state.contains_draw = true ∨
        (ice.batches i).state.cache_render_entries ≠ 0
    · rw [if_pos hcond] at hl
      have hbc := emit_flush_batch_mem i (ice.batches i)
        (iris_memory_barrier_bits scope) c (hl ▸ hcl)
      simp only [decide_eq_true_eq]
      intro heq
      rw [hbc] at heq
      subst heq
      rcases hcond with hcond | hcond
      · rw [h1] at hcond
        exact Bool.false_ne_true hcond
      · exact hcond h2
    · rw [if_neg hcond] at hl
      rw [← hl] at hcl
      cases hcl

/-- A fully idle context: no pending draws, empty caches on both batches. -/
def idleCtx : IrisContext := ⟨fun _ => ⟨⟨false, 0, 0⟩, ⟨0⟩⟩⟩

/-- Concrete instance of C6: on the idle context the texture barrier emits
nothing and the memory barrier touches no batch. -/
theorem C6_idle_batches_untouched_witness :
    iris_texture_barrier idleCtx = [] ∧
    (iris_memory_barrier idleCtx {BarrierBit.texture}).filter
      (fun c => decide (c.batch = BatchName.render)) = [] :=
  ⟨(C6_idle_batches_untouched idleCtx {BarrierBit.texture}).1 rfl rfl rfl rfl,
   (C6_idle_batches_untouched idleCtx {BarrierBit.texture}).2
     BatchName.render rfl rfl⟩

/-! ### C7 — flush/invalidate ordering through the memory barrier -/

/-- The memory-barrier flag set always holds the data-cache flush bit. -/
theorem mem_barrier_bits_dataCacheFlush (scope : Finset BarrierBit) :
    Flag.dataCacheFlush ∈ iris_memory_barrier_bits scope := by
  simp only [iris_memory_barrier_bits]
  split_ifs <;> decide

/-- With texture in scope, the memory-barrier flag set holds both the
render-target flush bit and the texture-cache invalidate bit. -/
theorem mem_barrier_bits_of_texture (scope : Finset BarrierBit)
    (ht : BarrierBit.texture ∈ scope) :
    Flag.renderTargetFlush ∈ iris_memory_barrier_bits scope ∧
    Flag.textureCacheInvalidate ∈ iris_memory_barrier_bits scope := by
  have h3 : (scope ∩ ({BarrierBit.texture, BarrierBit.framebuffer} :
      Finset BarrierBit)).Nonempty :=
    ⟨BarrierBit.texture, Finset.mem_inter.mpr ⟨ht, by decide⟩⟩
  simp only [iris_memory_barrier_bits]
  rw [if_pos h3]
  constructor <;> exact Finset.mem_union_right _ (by decide)

/-- With texture in scope, the memory-barrier flag set holds both a flush bit
and an invalidate bit, so the splitter fires on it. -/
theorem barrier_bits_overlap (scope : Finset BarrierBit)
    (ht : BarrierBit.texture ∈ scope) :
    (iris_memory_barrier_bits scope ∩ PIPE_CONTROL_CACHE_FLUSH_BITS).Nonempty ∧
    (iris_memory_barrier_bits scope ∩ PIPE_CONTROL_CACHE_INVALIDATE_BITS).Nonempty :=
  ⟨⟨Flag.dataCacheFlush, Finset.mem_inter.mpr
      ⟨mem_barrier_bits_dataCacheFlush scope, by decide⟩⟩,
   ⟨Flag.textureCacheInvalidate, Finset.mem_inter.mpr
      ⟨(mem_barrier_bits_of_texture scope ht).2, by decide⟩⟩⟩

/-- No single call the flush helper emits carries both the render-target
flush bit and the texture-cache invalidate bit. -/
theorem emit_flush_not_both (who : BatchName) (batch : Batch) (F : Finset Flag) :
    ∀ c ∈ iris_emit_pipe_control_flush who batch F,
      ¬(Flag.renderTargetFlush ∈ c.flags ∧
        Flag.textureCacheInvalidate ∈ c.flags) := by
  intro c hc
  by_cases h : (F ∩ PIPE_CONTROL_CACHE_FLUSH_BITS).Nonempty ∧
               (F ∩ PIPE_CONTROL_CACHE_INVALIDATE_BITS).Nonempty
  · rw [emit_flush_split who batch F h] at hc
    simp only [List.mem_cons, List.not_mem_nil, or_false] at hc
    rcases hc with hc | hc <;> subst hc
    · rintro ⟨-, h2⟩
      rcases Finset.mem_union.mp h2 with h2 | h2
      · exact absurd (Finset.mem_inter.mp h2).2 (by decide)
      · exact absurd h2 (by decide)
    · rintro ⟨h1, -⟩
      exact (Finset.mem_sdiff.mp h1).2 (by decide)
  · rw [emit_flush_no_split who batch F h] at hc
    simp only [List.mem_singleton] at hc
    subst hc
    rintro ⟨h1, h2⟩
    exact h ⟨⟨Flag.renderTargetFlush, Finset.mem_inter.mpr ⟨h1, by decide⟩⟩,
             ⟨Flag.textureCacheInvalidate, Finset.mem_inter.mpr ⟨h2, by decide⟩⟩⟩

/-- C7: on a context with a pending-work batch and a scope containing
texture, the memory barrier's raw trace has an earlier call whose flags hold
render-target flush, a strictly later call whose flags hold texture-cache
invalidate, and no single call holding both. -/
theorem C7_memory_barrier_ordering (ice : IrisContext) (scope : Finset BarrierBit)
    (b : BatchName)
    (hb : (ice.batches b).state.contains_draw = true)
    (ht : BarrierBit.texture ∈ scope) :
    (∃ l1 c1 l2 c2 l3,
       iris_memory_barrier ice scope = l1 ++ c1 :: (l2 ++ c2 :: l3) ∧
       Flag.renderTargetFlush ∈ c1.flags ∧
       Flag.textureCacheInvalidate ∈ c2.flags) ∧
    (∀ c ∈ iris_memory_barrier ice scope,
       ¬(Flag.renderTargetFlush ∈ c.flags ∧
         Flag.textureCacheInvalidate ∈ c.flags)) := by
  have hsplit := barrier_bits_overlap scope ht
  constructor
  · by_cases hr : (ice.batches BatchName.render).state.contains_draw = true ∨
        (ice.batches BatchName.render).state.cache_render_entries ≠ 0
    · have er := emit_flush_split BatchName.render (ice.batches BatchName.render)
        (iris_memory_barrier_bits scope) hsplit
      have htr : iris_memory_barrier ice scope =
          { batch := BatchName.render,
            flags := (iris_memory_barrier_bits scope ∩
                      PIPE_CONTROL_CACHE_FLUSH_BITS) ∪
                     {Flag.csStall, Flag.writeImmediate},
            bo := some (ice.batches BatchName.render).workaround_bo,
            offset := 0, imm := 0 } ::
          { batch := BatchName.render,
            flags := iris_memory_barrier_bits scope \
                     (PIPE_CONTROL_CACHE_FLUSH_BITS ∪ {Flag.csStall}),
            bo := none, offset := 0, imm := 0 } ::
          (if (ice.batches BatchName.compute).state.contains_draw = true ∨
              (ice.batches BatchName.compute).state.cache_render_entries ≠ 0 then
            iris_emit_pipe_control_flush BatchName.compute
              (ice.batches BatchName.compute) (iris_memory_barrier_bits scope)
          else []) := by
        simp only [iris_memory_barrier, IRIS_BATCH_LIST, List.map_cons,
          List.map_nil, List.flatten_cons, List.flatten_nil, List.append_nil,
          if_pos hr, er, List.cons_append, List.nil_append]
      refine ⟨[], _, [], _, _, by rw [htr]; rfl, ?_, ?_⟩
      · exact Finset.mem_union_left _ (Finset.mem_inter.mpr
          ⟨(mem_barrier_bits_of_texture scope ht).1, by decide⟩)
      · exact Finset.mem_sdiff.mpr
          ⟨(mem_barrier_bits_of_texture scope ht).2, by decide⟩
    · have hbc : b = BatchName.compute := by
        cases b
        · exact absurd (Or.inl hb) hr
        · rfl
      subst hbc
      have hc : (ice.batches BatchName.compute).state.contains_draw = true ∨
          (ice.batches BatchName.compute).state.cache_render_entries ≠ 0 :=
        Or.inl hb
      have ec := emit_flush_split BatchName.compute (ice.batches BatchName.compute)
        (iris_memory_barrier_bits scope) hsplit
      have htr : iris_memory_barrier ice scope =
          { batch := BatchName.compute,
            flags := (iris_memory_barrier_bits scope ∩
                      PIPE_CONTROL_CACHE_FLUSH_BITS) ∪
                     {Flag.csStall, Flag.writeImmediate},
            bo := some (ice.batches BatchName.compute).workaround_bo,
            offset := 0, imm := 0 } ::
          { batch := BatchName.compute,
            flags := iris_memory_barrier_bits scope \
                     (PIPE_CONTROL_CACHE_FLUSH_BITS ∪ {Flag.csStall}),
            bo := none, offset := 0, imm := 0 } :: [] := by
        simp only [iris_memory_barrier, IRIS_BATCH_LIST, List.map_cons,
          List.map_nil, List.flatten_cons, List.flatten_nil, List.append_nil,
          if_neg hr, if_pos hc, ec, List.cons_append, List.nil_append]
      refine ⟨[], _, [], _, _, by rw [htr]; rfl, ?_, ?_⟩
      · exact Finset.mem_union_left _ (Finset.mem_inter.mpr
          ⟨(mem_barrier_bits_of_texture scope ht).1, by decide⟩)
      · exact Finset.mem_sdiff.mpr
          ⟨(mem_barrier_bits_of_texture scope ht).2, by decide⟩
  · intro c hc
    simp only [iris_memory_barrier, IRIS_BATCH_LIST, List.mem_flatten,
      List.mem_map] at hc
    obtain ⟨l, ⟨i, hi, hl⟩, hcl⟩ := hc
    by_cases hcond : (ice.batches i).state.contains_draw = true ∨
        (ice.batches i).state.cache_render_entries ≠ 0
    · rw [if_pos hcond] at hl
      exact emit_flush_not_both i (ice.batches i)
        (iris_memory_barrier_bits scope) c (hl ▸ hcl)
    · rw [if_neg hcond] at hl
      rw [← hl] at hcl
      cases hcl

/-- A context whose batches both have a draw pending and empty caches. -/
def activeCtx : IrisContext := ⟨fun _ => ⟨⟨true, 0, 0⟩, ⟨0⟩⟩⟩

/-- Concrete instance of C7: a texture-scoped memory barrier over an active
context orders the render-target flush strictly before the texture-cache
invalidate and never merges them. -/
theorem C7_memory_barrier_ordering_witness :
    (∃ l1 c1 l2 c2 l3,
       iris_memory_barrier activeCtx {BarrierBit.texture} =
         l1 ++ c1 :: (l2 ++ c2 :: l3) ∧
       Flag.renderTargetFlush ∈ c1.flags ∧
       Flag.textureCacheInvalidate ∈ c2.flags) ∧
    (∀ c ∈ iris_memory_barrier activeCtx {BarrierBit.texture},
       ¬(Flag.renderTargetFlush ∈ c.flags ∧
         Flag.textureCacheInvalidate ∈ c.flags)) :=
  C7_memory_barrier_ordering activeCtx {BarrierBit.texture} BatchName.render
    rfl (by decide)

end Mesa
